import Mathlib

/-!
Verification of the deck.gl excerpt consisting of the documentation-site demo
module `website/src/doc-demos/mesh-layers.js` and the pydeck notebook
`bindings/pydeck/examples/07 - Binary Transport.ipynb`.

The development embeds the two files at two levels:

* a semantic level: JavaScript runtime values (`JSVal`) with the tooltip
  function and the accessor functions that the demo module's `props` strings
  define, a column-oriented model of the notebook's `pandas.DataFrame`
  transformations, and the notebook's pydeck layer arguments;
* a syntactic level: an abstract syntax (`Expr`/`Stmt`) shared by the
  JavaScript module and the notebook's Python cells, with a full transcription
  of both files, used for the claims about what constructs the files contain
  (error handling, concurrency, wiring, evaluation order, call surface).

`Math.random()` is modelled by passing the value the call returned for an
invocation explicitly (a draw), so that properties about repeated invocations
quantify over the draws of the successive calls.
-/

set_option maxRecDepth 40000

namespace DeckGlExcerpt

/-! ### JavaScript runtime values

Only what the excerpt's expressions can produce or consume: the picking
`object` handed to the tooltip is `null`/`undefined` or a record with string
fields, and the accessors read fields of a data row. JavaScript `NaN` and
array values do not occur in these code paths and are not modelled. -/

/-- JavaScript runtime value as the demo module's embedded functions see it. -/
inductive JSVal where
  | null
  | undefined
  | boolV (b : Bool)
  | numV (q : Rat)
  | strV (s : String)
  | objV (fields : List (String × JSVal))
deriving Repr

/-- Truthiness of a JavaScript value (`if`/`&&` semantics): `null`,
`undefined`, `false`, `0` and the empty string are falsy, objects truthy. -/
def truthy : JSVal → Bool
  | .null => false
  | .undefined => false
  | .boolV b => b
  | .numV q => !(q == 0)
  | .strV s => !(s == "")
  | .objV _ => true

/-- Property read `v.f`: a present field's value, otherwise `undefined`
(reads on primitives also yield `undefined` for the fields used here). -/
def getField : JSVal → String → JSVal
  | .objV fs, f => (((fs.find? (fun p => p.1 == f))).map Prod.snd).getD .undefined
  | _, _ => .undefined

/-- String conversion as a template literal performs it. The decimal
rendering of numbers is abstracted by the exact rational's rendering; no
theorem below depends on it. -/
def jsToString : JSVal → String
  | .null => "null"
  | .undefined => "undefined"
  | .boolV b => if b then "true" else "false"
  | .numV q => toString q
  | .strV s => s
  | .objV _ => "[object Object]"

/-- Source text of the tooltip function, the value of `getTooltip` in both
demo configurations (the braces of the JavaScript source are written as
their escapes): `(\x7bobject\x7d) => object && ...` with a template literal
interpolating `object.name` and `object.address` around a newline. -/
def tooltipSource : String :=
  "(\x7bobject\x7d) => object && `$\x7bobject.name\x7d\n$\x7bobject.address\x7d`"

/-- Semantics of the tooltip function `(\x7bobject\x7d) => object &&
`$\x7bobject.name\x7d\n$\x7bobject.address\x7d``: `&&` returns its left
operand when that is falsy and otherwise evaluates the template literal. -/
def tooltipFn (object : JSVal) : JSVal :=
  if truthy object then
    .strV (jsToString (getField object "name") ++ "\n" ++ jsToString (getField object "address"))
  else object

/-- Instrumented run of the tooltip function: the result together with the
list of fields the run read off the picked `object`, in order. The falsy
branch of `&&` never evaluates the template literal, so it reads nothing. -/
def tooltipRun (object : JSVal) : JSVal × List String :=
  if truthy object then
    (.strV (jsToString (getField object "name") ++ "\n" ++ jsToString (getField object "address")),
      ["name", "address"])
  else (object, [])

theorem tooltipRun_fst (object : JSVal) : (tooltipRun object).1 = tooltipFn object := by
  unfold tooltipRun tooltipFn
  by_cases h : truthy object <;> simp [h]

/-! ### Accessor functions of the demo `props` strings

Each accessor receives the data row `d` it is invoked on; an accessor whose
body calls `Math.random()` additionally receives the draw that call
returned for this invocation. -/

/-- Accessor `getPosition: d => d.coordinates` of the ScenegraphLayer demo's
`props` string (the draw parameter is unused: the body has no random call). -/
def scenegraphGetPosition (d : JSVal) (_draw : Rat) : JSVal :=
  getField d "coordinates"

/-- Accessor `getPosition: d => d.coordinates` of the SimpleMeshLayer demo's
`props` string. -/
def simpleMeshGetPosition (d : JSVal) (_draw : Rat) : JSVal :=
  getField d "coordinates"

/-- Accessor `getColor: d => [Math.sqrt(d.exits), 140, 0]` of the
SimpleMeshLayer demo's `props` string. `Math.sqrt` and the JavaScript
number coercion it applies to the field value are fixed pure functions of
the environment, identical at every invocation, so they are the parameters
`sqrtFn` and `toNumber` rather than modelled numerically (no claim depends
on their values); the draw parameter is unused: the body has no random
call. -/
def simpleMeshGetColor (sqrtFn : Rat → Rat) (toNumber : JSVal → Rat)
    (d : JSVal) (_draw : Rat) : Rat × Rat × Rat :=
  (sqrtFn (toNumber (getField d "exits")), 140, 0)

/-- Accessor `getOrientation: d => [0, Math.random() * 180, 90]` of the
ScenegraphLayer demo's `props` string; `draw` is the value the
`Math.random()` call returned in this invocation. -/
def scenegraphGetOrientation (_d : JSVal) (draw : Rat) : Rat × Rat × Rat :=
  (0, draw * 180, 90)

/-- Accessor `getOrientation: d => [0, Math.random() * 180, 0]` of the
SimpleMeshLayer demo's `props` string. -/
def simpleMeshGetOrientation (_d : JSVal) (draw : Rat) : Rat × Rat × Rat :=
  (0, draw * 180, 0)

/-- Evaluation of `getOrientation` twice on the same datum: the stream
`draws` yields the values of the two successive `Math.random()` calls. -/
def runGetOrientationTwice (d : JSVal) (draws : Nat → Rat) :
    (Rat × Rat × Rat) × (Rat × Rat × Rat) :=
  (scenegraphGetOrientation d (draws 0), scenegraphGetOrientation d (draws 1))

/-- Two successive results of `Math.random()`, 0 and 1/2, both within the
range [0, 1) that `Math.random` is specified to return values in. -/
def exampleDraws : Nat → Rat
  | 0 => 0
  | _ => 1 / 2

/-! ### Demo configuration objects

The argument object each `makeLayerDemo` call receives. The `props` value is
the module's template literal already interpolated: `DATA_URI` (imported from
`../constants/defaults`, a file outside the excerpt) stays a parameter. All
braces and single quotes of the JavaScript source text are written as their
character escapes. -/

/-- Value of a field of a demo configuration object: a string, a list, or a
reference to an imported layer class (identified by the class name). -/
inductive ConfigValue where
  | strV (s : String)
  | listV (elems : List ConfigValue)
  | layerClass (name : String)
deriving Repr

/-- Text of the ScenegraphLayer demo's `props` template before the first
(and only) `DATA_URI` interpolation. -/
def scenegraphPropsPartA : String := "\x7b\n    data: \x27"

/-- Text of the ScenegraphLayer demo's `props` template after the `DATA_URI`
interpolation. -/
def scenegraphPropsPartB : String :=
  "/bart-stations.json\x27,\n    pickable: true,\n    scenegraph: \x27https://raw.githubusercontent.com/KhronosGroup/glTF-Sample-Models/master/2.0/BoxAnimated/glTF-Binary/BoxAnimated.glb\x27,\n    getPosition: d => d.coordinates,\n    getOrientation: d => [0, Math.random() * 180, 90],\n    _animations: \x7b\n      \x27*\x27: \x7bspeed: 5\x7d\n    \x7d,\n    sizeScale: 500,\n    _lighting: \x27pbr\x27\n  \x7d"

/-- Text of the SimpleMeshLayer demo's `props` template before the first
`DATA_URI` interpolation. -/
def simpleMeshPropsPartA : String := "\x7b\n    data: \x27"

/-- Text of the SimpleMeshLayer demo's `props` template between its two
`DATA_URI` interpolations. -/
def simpleMeshPropsPartB : String :=
  "/bart-stations.json\x27,\n    pickable: true,\n    mesh: \x27"

/-- Text of the SimpleMeshLayer demo's `props` template after the second
`DATA_URI` interpolation. -/
def simpleMeshPropsPartC : String :=
  "/humanoid_quad.obj\x27,\n    getPosition: d => d.coordinates,\n    getColor: d => [Math.sqrt(d.exits), 140, 0],\n    getOrientation: d => [0, Math.random() * 180, 0],\n    sizeScale: 30\n  \x7d"

/-- Value of the ScenegraphLayer demo's `props` template literal, given the
value of `DATA_URI`. -/
def scenegraphPropsSource (dataUri : String) : String :=
  scenegraphPropsPartA ++ dataUri ++ scenegraphPropsPartB

/-- Value of the SimpleMeshLayer demo's `props` template literal, given the
value of `DATA_URI`. -/
def simpleMeshPropsSource (dataUri : String) : String :=
  simpleMeshPropsPartA ++ dataUri ++ simpleMeshPropsPartB ++ dataUri ++ simpleMeshPropsPartC

/-- Configuration object passed to `makeLayerDemo` for `ScenegraphLayerDemo`,
as the ordered field list of the object literal. -/
def scenegraphDemoConfig (dataUri : String) : List (String × ConfigValue) :=
  [("Layer", .layerClass "ScenegraphLayer"),
   ("dependencies", .listV [.strV "https://unpkg.com/@loaders.gl/gltf@latest/dist/dist.min.js"]),
   ("loaders", .listV [.strV "GLTFLoader"]),
   ("getTooltip", .strV tooltipSource),
   ("props", .strV (scenegraphPropsSource dataUri))]

/-- Configuration object passed to `makeLayerDemo` for `SimpleMeshLayerDemo`. -/
def simpleMeshDemoConfig (dataUri : String) : List (String × ConfigValue) :=
  [("Layer", .layerClass "SimpleMeshLayer"),
   ("dependencies", .listV [.strV "https://unpkg.com/@loaders.gl/obj@latest/dist/dist.min.js"]),
   ("loaders", .listV [.strV "OBJLoader"]),
   ("getTooltip", .strV tooltipSource),
   ("props", .strV (simpleMeshPropsSource dataUri))]

/-- Whether a configuration value is a plain string. -/
def ConfigValue.isStrV : ConfigValue → Bool
  | .strV _ => true
  | _ => false

/-- Modelled from the spec: the shape the external layer-demo harness (the
`./layer-demo` module, not part of the excerpt) expects of a "layer demo"
descriptor — a `Layer` field holding a layer class reference, a
`dependencies` field holding a list of script dependency URL strings, a
`loaders` field holding a list of loader-name strings, a `getTooltip` field
holding a tooltip-function source string, and a `props` field holding a
property-object source string. -/
def isLayerDemoDescriptor : List (String × ConfigValue) → Bool
  | [("Layer", .layerClass _),
     ("dependencies", .listV deps),
     ("loaders", .listV ls),
     ("getTooltip", .strV _),
     ("props", .strV _)] => deps.all ConfigValue.isStrV && ls.all ConfigValue.isStrV
  | _ => false

/-! ### Abstract syntax shared by the JavaScript module and the notebook cells

The transcription keeps every construct the two files use. `ExprList`,
`FieldList` and `StmtList` are the list spines of the syntax tree (kept as
their own inductives so that the scans below are structural and compute). The
constructors `awaitE`, `spawnS`, `raiseS` and `tryS` cover the concurrency
and error-handling constructs the claims ask about; the transcriptions are
checked not to contain them. -/

mutual

/-- Expression of the excerpt's JavaScript/Python code. -/
inductive Expr where
  | intLit (n : Int)
  | strLit (s : String)
  | boolLit (b : Bool)
  | noneLit
  | ident (name : String)
  | attr (obj : Expr) (name : String)
  | subscript (obj : Expr) (ix : Expr)
  | call (fn : Expr) (args : ExprList) (kwargs : FieldList)
  | lam (params : List String) (body : Expr)
  | lamObjPat (params : List String) (body : Expr)
  | andE (lhs rhs : Expr)
  | binop (op : String) (lhs rhs : Expr)
  | arrayLit (elems : ExprList)
  | objLit (fields : FieldList)
  | template (parts : ExprList)
  | listComp (elem : Expr) (var : String) (src : Expr)
  | awaitE (e : Expr)
deriving Repr

/-- Spine of an expression list (call arguments, array elements, template
parts — in a `template`, `strLit` parts are raw text and every other part is
an interpolation). -/
inductive ExprList where
  | nil
  | cons (head : Expr) (tail : ExprList)
deriving Repr

/-- Spine of a keyword/field list (object literal fields, Python keyword
arguments). -/
inductive FieldList where
  | nil
  | cons (name : String) (value : Expr) (tail : FieldList)
deriving Repr

end

/-- Expression list from a Lean list. -/
def elist : List Expr → ExprList
  | [] => .nil
  | e :: es => .cons e (elist es)

/-- Field list from a Lean list. -/
def flist : List (String × Expr) → FieldList
  | [] => .nil
  | (n, v) :: fs => .cons n v (flist fs)

mutual

/-- Statement of the excerpt's JavaScript/Python code. -/
inductive Stmt where
  | importNamed (module : String) (names : List String)
  | importDefault (module : String) (name : String)
  | importAs (module : String) (asName : String)
  | exprStmt (e : Expr)
  | exportConst (name : String) (value : Expr)
  | assign (target : String) (value : Expr)
  | assignSubscript (target : String) (key : String) (value : Expr)
  | assignAttr (target : String) (name : String) (value : Expr)
  | delSubscript (target : String) (key : String)
  | funcDef (name : String) (params : List String) (body : StmtList)
  | ret (value : Expr)
  | raiseS (e : Expr)
  | tryS (body : StmtList) (handler : StmtList)
  | spawnS (e : Expr)
deriving Repr

/-- Spine of a statement list (function bodies, `try` blocks). -/
inductive StmtList where
  | nil
  | cons (head : Stmt) (tail : StmtList)
deriving Repr

end

/-- Statement list from a Lean list. -/
def slist : List Stmt → StmtList
  | [] => .nil
  | s :: ss => .cons s (slist ss)

mutual

/-- Every subexpression of an expression, the expression itself included. -/
def Expr.subtrees : Expr → List Expr
  | .intLit n => [.intLit n]
  | .strLit s => [.strLit s]
  | .boolLit b => [.boolLit b]
  | .noneLit => [.noneLit]
  | .ident x => [.ident x]
  | .attr o f => .attr o f :: o.subtrees
  | .subscript o i => .subscript o i :: (o.subtrees ++ i.subtrees)
  | .call f args kwargs => .call f args kwargs :: (f.subtrees ++ args.subtreesL ++ kwargs.subtreesF)
  | .lam ps b => .lam ps b :: b.subtrees
  | .lamObjPat ps b => .lamObjPat ps b :: b.subtrees
  | .andE a b => .andE a b :: (a.subtrees ++ b.subtrees)
  | .binop op a b => .binop op a b :: (a.subtrees ++ b.subtrees)
  | .arrayLit es => .arrayLit es :: es.subtreesL
  | .objLit fs => .objLit fs :: fs.subtreesF
  | .template ps => .template ps :: ps.subtreesL
  | .listComp e v s => .listComp e v s :: (e.subtrees ++ s.subtrees)
  | .awaitE e => .awaitE e :: e.subtrees

/-- Subexpressions of every expression of the spine. -/
def ExprList.subtreesL : ExprList → List Expr
  | .nil => []
  | .cons e t => e.subtrees ++ t.subtreesL

/-- Subexpressions of every field value of the spine. -/
def FieldList.subtreesF : FieldList → List Expr
  | .nil => []
  | .cons _ v t => v.subtrees ++ t.subtreesF

end

mutual

/-- Every substatement of a statement, itself included (recursing into
function bodies and `try` blocks). -/
def Stmt.substmts : Stmt → List Stmt
  | .funcDef n ps b => .funcDef n ps b :: b.substmtsL
  | .tryS b h => .tryS b h :: (b.substmtsL ++ h.substmtsL)
  | s => [s]

/-- Substatements of every statement of the spine. -/
def StmtList.substmtsL : StmtList → List Stmt
  | .nil => []
  | .cons s t => s.substmts ++ t.substmtsL

end

/-- Top-level expressions a statement holds (its own, not those of nested
statements — those are reached through `Stmt.substmts`). -/
def Stmt.exprs : Stmt → List Expr
  | .importNamed _ _ => []
  | .importDefault _ _ => []
  | .importAs _ _ => []
  | .exprStmt e => [e]
  | .exportConst _ v => [v]
  | .assign _ v => [v]
  | .assignSubscript _ _ v => [v]
  | .assignAttr _ _ v => [v]
  | .delSubscript _ _ => []
  | .funcDef _ _ _ => []
  | .ret v => [v]
  | .raiseS e => [e]
  | .tryS _ _ => []
  | .spawnS e => [e]

/-- Every expression subtree reachable from a program's statements. -/
def programSubExprs (prog : List Stmt) : List Expr :=
  ((((prog.map Stmt.substmts).flatten.map Stmt.exprs).flatten).map Expr.subtrees).flatten

/-- Whether a statement is an error-handling construct (`raise`/`throw` or a
`try` block). -/
def Stmt.isErrorHandling : Stmt → Bool
  | .raiseS _ => true
  | .tryS _ _ => true
  | _ => false

/-- Whether a statement spawns a concurrent activity. -/
def Stmt.isSpawn : Stmt → Bool
  | .spawnS _ => true
  | _ => false

/-- Whether an expression is an `await` (blocking on a concurrent activity). -/
def Expr.isAwait : Expr → Bool
  | .awaitE _ => true
  | _ => false

/-- Whether an expression guards on the truthiness of one of the enclosing
function's parameters: an `&&` whose left operand is the parameter itself. -/
def guardOnParams (ps : List String) : Expr → Bool
  | .andE (.ident x) _ => ps.contains x
  | _ => false

/-- Whether an expression is a function whose body checks its own input for
validity by a truthiness guard on a parameter. -/
def Expr.isInputGuardedFn : Expr → Bool
  | .lam ps b => b.subtrees.any (guardOnParams ps)
  | .lamObjPat ps b => b.subtrees.any (guardOnParams ps)
  | _ => false

/-! ### Transcription of `website/src/doc-demos/mesh-layers.js`

Statement by statement, in source order. The `props` values are the template
literals with their raw text and their `DATA_URI` interpolations; the
`getTooltip` values are the string literal `tooltipSource`. -/

/-- Template literal of the ScenegraphLayer demo's `props`. -/
def scenegraphPropsTemplate : Expr :=
  .template (elist [.strLit scenegraphPropsPartA, .ident "DATA_URI",
    .strLit scenegraphPropsPartB])

/-- Template literal of the SimpleMeshLayer demo's `props`. -/
def simpleMeshPropsTemplate : Expr :=
  .template (elist [.strLit simpleMeshPropsPartA, .ident "DATA_URI",
    .strLit simpleMeshPropsPartB, .ident "DATA_URI", .strLit simpleMeshPropsPartC])

/-- The demo module `website/src/doc-demos/mesh-layers.js`, statement by
statement. -/
def meshLayersModule : List Stmt :=
  [.importNamed "@deck.gl/mesh-layers" ["ScenegraphLayer", "SimpleMeshLayer"],
   .importNamed "@loaders.gl/core" ["registerLoaders"],
   .importNamed "@loaders.gl/gltf" ["GLTFLoader"],
   .importNamed "@loaders.gl/obj" ["OBJLoader"],
   .importDefault "./layer-demo" "makeLayerDemo",
   .importNamed "../constants/defaults" ["DATA_URI"],
   .exprStmt (.call (.ident "registerLoaders")
     (elist [.arrayLit (elist [.ident "GLTFLoader", .ident "OBJLoader"])]) (flist [])),
   .exportConst "ScenegraphLayerDemo" (.call (.ident "makeLayerDemo")
     (elist [.objLit (flist
       [("Layer", .ident "ScenegraphLayer"),
        ("dependencies", .arrayLit (elist
          [.strLit "https://unpkg.com/@loaders.gl/gltf@latest/dist/dist.min.js"])),
        ("loaders", .arrayLit (elist [.strLit "GLTFLoader"])),
        ("getTooltip", .strLit tooltipSource),
        ("props", scenegraphPropsTemplate)])]) (flist [])),
   .exportConst "SimpleMeshLayerDemo" (.call (.ident "makeLayerDemo")
     (elist [.objLit (flist
       [("Layer", .ident "SimpleMeshLayer"),
        ("dependencies", .arrayLit (elist
          [.strLit "https://unpkg.com/@loaders.gl/obj@latest/dist/dist.min.js"])),
        ("loaders", .arrayLit (elist [.strLit "OBJLoader"])),
        ("getTooltip", .strLit tooltipSource),
        ("props", simpleMeshPropsTemplate)])]) (flist []))]

/-! ### Parses of the function sources embedded in the demo strings

The demo module carries executable code inside strings: `tooltipSource` and
the two `props` templates. These are their parses, scanned together with the
two files' statements by the error-handling and concurrency claims. -/

/-- Parse of `tooltipSource`: an arrow function with the object-destructured
parameter `object`, whose body is `object && ...` with a template literal
interpolating `object.name` and `object.address` around a newline. -/
def tooltipAst : Expr :=
  .lamObjPat ["object"] (.andE (.ident "object")
    (.template (elist [.attr (.ident "object") "name", .strLit "\n",
      .attr (.ident "object") "address"])))

/-- Parse of the ScenegraphLayer demo's `props` string (the object literal
its text denotes), after the `DATA_URI` interpolation. -/
def scenegraphPropsAst (dataUri : String) : Expr :=
  .objLit (flist
    [("data", .strLit (dataUri ++ "/bart-stations.json")),
     ("pickable", .boolLit true),
     ("scenegraph", .strLit "https://raw.githubusercontent.com/KhronosGroup/glTF-Sample-Models/master/2.0/BoxAnimated/glTF-Binary/BoxAnimated.glb"),
     ("getPosition", .lam ["d"] (.attr (.ident "d") "coordinates")),
     ("getOrientation", .lam ["d"] (.arrayLit (elist
       [.intLit 0,
        .binop "*" (.call (.attr (.ident "Math") "random") (elist []) (flist [])) (.intLit 180),
        .intLit 90]))),
     ("_animations", .objLit (flist [("*", .objLit (flist [("speed", .intLit 5)]))])),
     ("sizeScale", .intLit 500),
     ("_lighting", .strLit "pbr")])

/-- Parse of the SimpleMeshLayer demo's `props` string, after the `DATA_URI`
interpolations. -/
def simpleMeshPropsAst (dataUri : String) : Expr :=
  .objLit (flist
    [("data", .strLit (dataUri ++ "/bart-stations.json")),
     ("pickable", .boolLit true),
     ("mesh", .strLit (dataUri ++ "/humanoid_quad.obj")),
     ("getPosition", .lam ["d"] (.attr (.ident "d") "coordinates")),
     ("getColor", .lam ["d"] (.arrayLit (elist
       [.call (.attr (.ident "Math") "sqrt") (elist [.attr (.ident "d") "exits"]) (flist []),
        .intLit 140, .intLit 0]))),
     ("getOrientation", .lam ["d"] (.arrayLit (elist
       [.intLit 0,
        .binop "*" (.call (.attr (.ident "Math") "random") (elist []) (flist [])) (.intLit 180),
        .intLit 0]))),
     ("sizeScale", .intLit 30)])

/-- Every code expression the demo module embeds inside strings: each demo's
tooltip function and parsed `props` object. -/
def embeddedSourceAsts (dataUri : String) : List Expr :=
  [tooltipAst, scenegraphPropsAst dataUri, tooltipAst, simpleMeshPropsAst dataUri]

/-! ### Transcription of the notebook's code cells

The five code cells of `bindings/pydeck/examples/07 - Binary Transport.ipynb`,
statement by statement, in cell order. -/

/-- First code cell: imports, `NODES_URL`, and the (unused)
`generate_graph_data` function. -/
def notebookCellImports : List Stmt :=
  [.importAs "pydeck" "pdk",
   .importAs "pandas" "pd",
   .assign "NODES_URL"
     (.strLit "https://raw.githubusercontent.com/ajduberstein/geo_datasets/master/social_nodes.csv"),
   .funcDef "generate_graph_data" ["num_nodes", "random_seed"] (slist
     [.exprStmt (.strLit "Generates a graph of 10k nodes with a 3D force layout\n\n    This function is unused but serves as an example of how the data in\n    this visualization was generated\n    "),
      .importAs "networkx" "nx",
      .assign "g" (.call (.attr (.ident "nx") "random_internet_as_graph")
        (elist [.ident "num_nodes", .ident "random_seed"]) (flist [])),
      .assign "node_positions" (.call (.attr (.ident "nx") "fruchterman_reingold_layout")
        (elist [.ident "g"]) (flist [("dim", .intLit 3)])),
      .assign "force_layout_df" (.call (.attr
        (.call (.attr (.attr (.ident "pd") "DataFrame") "from_records")
          (elist [.ident "node_positions"]) (flist [])) "transpose") (elist []) (flist [])),
      .assignSubscript "force_layout_df" "group"
        (.listComp (.subscript (.subscript (.ident "d") (.intLit 1)) (.strLit "type")) "d"
          (.call (.attr (.attr (.ident "g") "nodes") "data") (elist []) (flist []))),
      .assignAttr "force_layout_df" "columns"
        (.arrayLit (elist [.strLit "x", .strLit "y", .strLit "z", .strLit "group"])),
      .ret (.ident "force_layout_df")])]

/-- Second code cell: reading the CSV. -/
def notebookCellRead : List Stmt :=
  [.assign "nodes" (.call (.attr (.ident "pd") "read_csv") (elist [.ident "NODES_URL"]) (flist [])),
   .exprStmt (.call (.attr (.ident "nodes") "head") (elist []) (flist []))]

/-- Third code cell: nesting x, y, z into `position` and deleting them. -/
def notebookCellPosition : List Stmt :=
  [.assignSubscript "nodes" "position" (.call (.attr (.ident "nodes") "apply")
     (elist [.lam ["row"] (.arrayLit (elist
       [.subscript (.ident "row") (.strLit "x"),
        .subscript (.ident "row") (.strLit "y"),
        .subscript (.ident "row") (.strLit "z")]))])
     (flist [("axis", .intLit 1)])),
   .delSubscript "nodes" "x",
   .delSubscript "nodes" "y",
   .delSubscript "nodes" "z",
   .exprStmt (.call (.attr (.ident "nodes") "head") (elist []) (flist []))]

/-- Fourth code cell: assigning normalized colors by group and deleting
`group`. -/
def notebookCellColor : List Stmt :=
  [.assign "colors" (.call (.attr (.attr (.ident "pdk") "data_utils") "assign_random_colors")
     (elist [.subscript (.ident "nodes") (.strLit "group")]) (flist [])),
   .assignSubscript "nodes" "color" (.call (.attr (.ident "nodes") "apply")
     (elist [.lam ["row"] (.listComp (.binop "/" (.ident "c") (.intLit 255)) "c"
       (.call (.attr (.ident "colors") "get")
         (elist [.subscript (.ident "row") (.strLit "group")]) (flist [])))])
     (flist [("axis", .intLit 1)])),
   .delSubscript "nodes" "group",
   .exprStmt (.call (.attr (.ident "nodes") "head") (elist []) (flist []))]

/-- Fifth code cell: view state, views, layer, deck and `.show()`. -/
def notebookCellDeck : List Stmt :=
  [.assign "view_state" (.call (.attr (.ident "pdk") "ViewState") (elist [])
     (flist [("offset", .arrayLit (elist [.intLit 0, .intLit 0])),
             ("latitude", .noneLit),
             ("longitude", .noneLit),
             ("bearing", .noneLit),
             ("pitch", .noneLit),
             ("zoom", .intLit 10)])),
   .assign "views" (.arrayLit (elist [.call (.attr (.ident "pdk") "View") (elist [])
     (flist [("type", .strLit "OrbitView"), ("controller", .boolLit true)])])),
   .assign "nodes_layer" (.call (.attr (.ident "pdk") "Layer")
     (elist [.strLit "PointCloudLayer", .ident "nodes"])
     (flist [("id", .strLit "binary-points"),
             ("use_binary_transport", .boolLit true),
             ("get_position", .strLit "position"),
             ("get_normal", .arrayLit (elist [.intLit 10, .intLit 100, .intLit 10])),
             ("get_color", .strLit "color"),
             ("pickable", .boolLit true),
             ("auto_highlight", .boolLit true),
             ("highlight_color", .arrayLit (elist [.intLit 255, .intLit 255, .intLit 0])),
             ("radius", .intLit 50)])),
   .exprStmt (.call (.attr
     (.call (.attr (.ident "pdk") "Deck") (elist [])
       (flist [("layers", .arrayLit (elist [.ident "nodes_layer"])),
               ("initial_view_state", .ident "view_state"),
               ("views", .ident "views"),
               ("map_provider", .noneLit)])) "show") (elist []) (flist []))]

/-- All statements of the notebook's code cells, in order. -/
def notebookStmts : List Stmt :=
  notebookCellImports ++ notebookCellRead ++ notebookCellPosition ++
    notebookCellColor ++ notebookCellDeck

/-- All statements of both supplied files. -/
def allRepoStmts : List Stmt := meshLayersModule ++ notebookStmts

/-- Every expression subtree of both files, the parses of the code embedded
in the demo strings included. -/
def allRepoSubExprs (dataUri : String) : List Expr :=
  programSubExprs allRepoStmts ++ ((embeddedSourceAsts dataUri).map Expr.subtrees).flatten

/-! ### Wiring and evaluation order of the demo module -/

/-- Names a program imports from the module `m` by named-import statements. -/
def importsFrom (m : String) (prog : List Stmt) : List String :=
  (prog.filterMap (fun s => match s with
    | .importNamed mod names => if mod == m then some names else none
    | _ => none)).flatten

/-- Lookup of a field by name in a field list. -/
def FieldList.lookup : FieldList → String → Option Expr
  | .nil, _ => none
  | .cons n v t, f => if n == f then some v else t.lookup f

/-- Layer class a `makeLayerDemo` call wires, read off the `Layer` field of
its configuration object (the module writes it as the first field). -/
def demoLayerOf : Expr → Option String
  | .call (.ident "makeLayerDemo") (.cons (.objLit (.cons "Layer" (.ident l) _)) _) _ => some l
  | _ => none

/-- Exported constants of a program with, for each, the layer its
`makeLayerDemo` call wires (none when the export is not such a call). -/
def exportedDemos (prog : List Stmt) : List (String × Option String) :=
  prog.filterMap (fun s => match s with
    | .exportConst n v => some (n, demoLayerOf v)
    | _ => none)

/-- Tooltip source string of a `makeLayerDemo` call's configuration object. -/
def demoTooltipOf : Expr → Option String
  | .call (.ident "makeLayerDemo") (.cons (.objLit fs) _) _ =>
      match fs.lookup "getTooltip" with
      | some (.strLit s) => some s
      | _ => none
  | _ => none

/-- Tooltip source strings of a program's exported demos. -/
def exportedTooltipSources (prog : List Stmt) : List String :=
  prog.filterMap (fun s => match s with
    | .exportConst _ v => demoTooltipOf v
    | _ => none)

/-- Observable event of evaluating one module-level statement. -/
inductive ModuleEvent where
  | loadersRegistered (loaders : List String)
  | demoConstructed (name : String)
deriving Repr, DecidableEq

/-- Identifier names of an expression list (the loaders passed to
`registerLoaders` are plain identifiers). -/
def identNames : ExprList → List String
  | .nil => []
  | .cons (.ident x) t => x :: identNames t
  | .cons _ t => identNames t

/-- Event a module-level statement produces when the module is evaluated:
the `registerLoaders(...)` call registers its loaders, and each exported
`makeLayerDemo(...)` call constructs a demo. Other statements produce no
observable event. -/
def moduleEventOf : Stmt → Option ModuleEvent
  | .exprStmt (.call (.ident "registerLoaders") (.cons (.arrayLit ls) .nil) _) =>
      some (.loadersRegistered (identNames ls))
  | .exportConst n (.call (.ident "makeLayerDemo") _ _) => some (.demoConstructed n)
  | _ => none

/-- Trace of events of evaluating the demo module: ES module statements run
top to bottom (imports are hoisted above them), so the trace follows the
statement order of the transcription. -/
def moduleEvents : List ModuleEvent := meshLayersModule.filterMap moduleEventOf

/-- Whether an event is the construction of a demo. -/
def ModuleEvent.isDemoConstructed : ModuleEvent → Bool
  | .demoConstructed _ => true
  | _ => false

/-! ### The notebook's call surface onto pydeck -/

/-- Call onto the pydeck binding, with the keyword-argument names it passes
(and, for `pdk.Layer`, the number of positional arguments as well). -/
inductive PdkCall where
  | viewStateC (kwargs : List String)
  | viewC (kwargs : List String)
  | layerC (positional : Nat) (kwargs : List String)
  | deckC (kwargs : List String)
  | showC
  | assignRandomColorsC
deriving Repr, DecidableEq

/-- Keyword names of a field list, in order. -/
def FieldList.names : FieldList → List String
  | .nil => []
  | .cons n _ t => n :: t.names

/-- Length of an expression list. -/
def ExprList.length : ExprList → Nat
  | .nil => 0
  | .cons _ t => t.length + 1

/-- Whether an expression is a `pdk.Deck(...)` construction. -/
def isPdkDeckCall : Expr → Bool
  | .call (.attr (.ident "pdk") "Deck") _ _ => true
  | _ => false

/-- Pydeck call an expression node itself makes, if any. -/
def pdkCallOf : Expr → Option PdkCall
  | .call (.attr (.attr (.ident "pdk") "data_utils") "assign_random_colors") _ _ =>
      some .assignRandomColorsC
  | .call (.attr (.ident "pdk") "ViewState") _ kw => some (.viewStateC kw.names)
  | .call (.attr (.ident "pdk") "View") _ kw => some (.viewC kw.names)
  | .call (.attr (.ident "pdk") "Layer") args kw => some (.layerC args.length kw.names)
  | .call (.attr (.ident "pdk") "Deck") _ kw => some (.deckC kw.names)
  | .call (.attr target "show") _ _ => if isPdkDeckCall target then some .showC else none
  | _ => none

mutual

/-- Pydeck calls an expression makes, in evaluation order: for a call, the
callee's calls come first, then the arguments', then the call itself. Lambda
bodies are included (they run when pandas applies them); nothing in them
calls pydeck. -/
def Expr.pdkCalls : Expr → List PdkCall
  | .intLit _ => []
  | .strLit _ => []
  | .boolLit _ => []
  | .noneLit => []
  | .ident _ => []
  | .attr o _ => o.pdkCalls
  | .subscript o i => o.pdkCalls ++ i.pdkCalls
  | .call f args kwargs =>
      f.pdkCalls ++ args.pdkCallsL ++ kwargs.pdkCallsF ++ (pdkCallOf (.call f args kwargs)).toList
  | .lam _ b => b.pdkCalls
  | .lamObjPat _ b => b.pdkCalls
  | .andE a b => a.pdkCalls ++ b.pdkCalls
  | .binop _ a b => a.pdkCalls ++ b.pdkCalls
  | .arrayLit es => es.pdkCallsL
  | .objLit fs => fs.pdkCallsF
  | .template ps => ps.pdkCallsL
  | .listComp e _ s => s.pdkCalls ++ e.pdkCalls
  | .awaitE e => e.pdkCalls

/-- Pydeck calls of every expression of the spine, in order. -/
def ExprList.pdkCallsL : ExprList → List PdkCall
  | .nil => []
  | .cons e t => e.pdkCalls ++ t.pdkCallsL

/-- Pydeck calls of every field value of the spine, in order. -/
def FieldList.pdkCallsF : FieldList → List PdkCall
  | .nil => []
  | .cons _ v t => v.pdkCalls ++ t.pdkCallsF

end

/-- Pydeck calls a statement makes when it runs. A function definition runs
nothing (and `generate_graph_data` is never called). -/
def Stmt.pdkCalls : Stmt → List PdkCall
  | .exprStmt e => e.pdkCalls
  | .exportConst _ v => v.pdkCalls
  | .assign _ v => v.pdkCalls
  | .assignSubscript _ _ v => v.pdkCalls
  | .assignAttr _ _ v => v.pdkCalls
  | .ret v => v.pdkCalls
  | .raiseS e => e.pdkCalls
  | .spawnS e => e.pdkCalls
  | _ => []

/-- Every pydeck call the notebook's cells make, in order. -/
def notebookPdkCalls : List PdkCall := (notebookStmts.map Stmt.pdkCalls).flatten

/-- Modelled from the spec: the call surface claimed for the notebook — a
`ViewState` construction with the view-state fields offset, latitude,
longitude, bearing, pitch and zoom, a `Layer` construction with keyword
arguments, a `Deck` construction, a `.show()` invocation, and nothing
else. -/
def matchesClaimedCallSurface : List PdkCall → Bool
  | [.viewStateC vs, .layerC _ _, .deckC _, .showC] =>
      vs == ["offset", "latitude", "longitude", "bearing", "pitch", "zoom"]
  | _ => false

/-! ### Column-oriented model of the notebook's DataFrame transformations

A `pandas.DataFrame` as the notebook uses it: an ordered list of named
columns of equal length. Column assignment replaces an existing column in
place or appends a new one at the end; `del` removes a column; `apply` with
`axis=1` builds one value per row index. -/

/-- Value a DataFrame cell holds in the notebook (numbers, strings, the
nested lists built by the transformation, and `None`). -/
inductive PyValue where
  | noneV
  | numV (q : Rat)
  | strV (s : String)
  | listV (elems : List PyValue)
deriving Repr

/-- DataFrame: ordered named columns. -/
structure DataFrame where
  cols : List (String × List PyValue)
deriving Repr

/-- Column names, in order. -/
def DataFrame.colNames (df : DataFrame) : List String := df.cols.map Prod.fst

/-- Values of the named column, when present. -/
def DataFrame.getCol (df : DataFrame) (c : String) : Option (List PyValue) :=
  ((df.cols.find? (fun p => p.1 == c))).map Prod.snd

/-- Number of rows (the length of the first column; the well-formed frames
here have all columns of equal length). -/
def DataFrame.nrows (df : DataFrame) : Nat :=
  ((df.cols.head?).map (fun p => p.2.length)).getD 0

/-- Value of row `i` of the named column (`noneV` for a missing column or an
out-of-range row). -/
def DataFrame.cell (df : DataFrame) (c : String) (i : Nat) : PyValue :=
  (((df.getCol c).bind (fun col => col.get? i))).getD .noneV

/-- Column assignment `df[c] = values` with one value per row index:
replaces the column in place when `c` exists, otherwise appends it. -/
def DataFrame.assignCol (df : DataFrame) (c : String) (f : Nat → PyValue) : DataFrame :=
  let vals := (List.range df.nrows).map f
  if df.cols.any (fun p => p.1 == c) then
    ⟨df.cols.map (fun p => if p.1 == c then (c, vals) else p)⟩
  else ⟨df.cols ++ [(c, vals)]⟩

/-- Column deletion `del df[c]`. -/
def DataFrame.delCol (df : DataFrame) (c : String) : DataFrame :=
  ⟨df.cols.filter (fun p => !(p.1 == c))⟩

/-- Whether the named column exists. -/
def DataFrame.hasCol (df : DataFrame) (c : String) : Bool :=
  df.cols.any (fun p => p.1 == c)

/-- The DataFrame `pd.read_csv(NODES_URL)` yields, with the flat columns
`x`, `y`, `z` and the categorical column `group` the notebook describes for
it (`generate_graph_data` builds exactly these four columns). -/
def initialNodes (xs ys zs gs : List PyValue) : DataFrame :=
  ⟨[("x", xs), ("y", ys), ("z", zs), ("group", gs)]⟩

/-- Transformation steps of notebook cells 3 and 4 on the `nodes` frame:
`nodes["position"] = nodes.apply(lambda row: [row["x"], row["y"], row["z"]], axis=1)`,
`del nodes["x"]`, `del nodes["y"]`, `del nodes["z"]`,
`nodes["color"] = nodes.apply(lambda row: [c / 255 for c in colors.get(row["group"])], axis=1)`,
`del nodes["group"]`. The dictionary `pdk.data_utils.assign_random_colors`
returned is the parameter `colors` (its `.get` lookup as a function of the
group value). -/
def transformNodes (nodes : DataFrame) (colors : PyValue → List Rat) : DataFrame :=
  let nodes1 := nodes.assignCol "position"
    (fun i => .listV [nodes.cell "x" i, nodes.cell "y" i, nodes.cell "z" i])
  let nodes2 := ((nodes1.delCol "x").delCol "y").delCol "z"
  let nodes3 := nodes2.assignCol "color"
    (fun i => .listV ((colors (nodes2.cell "group" i)).map (fun c => .numV (c / 255))))
  nodes3.delCol "group"

/-! ### The notebook's layer construction -/

/-- Accessor argument of a pydeck layer: a string naming a DataFrame column,
or a constant literal value. -/
inductive PdkAccessor where
  | columnName (name : String)
  | constList (vals : List Rat)
deriving Repr, DecidableEq

/-- Arguments of the notebook's `pdk.Layer("PointCloudLayer", nodes, ...)`
call, field for field. -/
structure PointCloudLayerArgs where
  layerType : String
  data : DataFrame
  id : String
  use_binary_transport : Bool
  get_position : PdkAccessor
  get_normal : PdkAccessor
  get_color : PdkAccessor
  pickable : Bool
  auto_highlight : Bool
  highlight_color : List Rat
  radius : Rat

/-- The notebook's `nodes_layer` construction, applied to the (transformed)
`nodes` frame in scope at the call. -/
def nodes_layer (nodes : DataFrame) : PointCloudLayerArgs :=
  ⟨"PointCloudLayer", nodes, "binary-points", true,
   .columnName "position", .constList [10, 100, 10], .columnName "color",
   true, true, [255, 255, 0], 50⟩

/-! ## Claims -/

/-- C1: for each of the two exported demos (ScenegraphLayerDemo and
SimpleMeshLayerDemo), the configuration object passed to `makeLayerDemo` has
exactly the shape the external harness expects — a `Layer` field holding a
layer class reference, a `dependencies` field holding a list of script
dependency URL strings, a `loaders` field holding a list of loader-name
strings, a `getTooltip` field holding a tooltip-function source string, and
a `props` field holding a property-object source string — whatever the value
of the imported `DATA_URI` constant. -/
theorem c1_demo_configs_have_expected_shape (dataUri : String) :
    isLayerDemoDescriptor (scenegraphDemoConfig dataUri) = true ∧
    isLayerDemoDescriptor (simpleMeshDemoConfig dataUri) = true :=
  ⟨rfl, rfl⟩

/-- C2 as stated is false on the code: the `getOrientation` accessor of the
demo `props` strings calls `Math.random()`, so two invocations on the same
datum return different orientation triples whenever the two draws differ.
Concretely, with the realizable draws 0 and 1/2 (both in `Math.random`'s
range [0, 1)) the two invocations on the same datum return (0, 0, 90) and
(0, 90, 90). -/
theorem c2_getOrientation_not_deterministic :
    (0 ≤ exampleDraws 0 ∧ exampleDraws 0 < 1) ∧
    (0 ≤ exampleDraws 1 ∧ exampleDraws 1 < 1) ∧
    (runGetOrientationTwice (JSVal.objV []) exampleDraws).1 ≠
      (runGetOrientationTwice (JSVal.objV []) exampleDraws).2 := by
  refine ⟨⟨by norm_num [exampleDraws], by norm_num [exampleDraws]⟩,
    ⟨by norm_num [exampleDraws], by norm_num [exampleDraws]⟩, ?_⟩
  simp only [runGetOrientationTwice, scenegraphGetOrientation, exampleDraws]
  intro h
  have h2 : (0 : Rat) * 180 = 1 / 2 * 180 := congrArg (fun p => p.2.1) h
  norm_num at h2

/-- C2 amended: the accessors whose bodies do not call `Math.random()` —
both demos' `getPosition` and the SimpleMeshLayer demo's `getColor` — are
deterministic: their result does not depend on the random draw, so two
invocations on the same datum yield the same result. Each demo's
`getOrientation` accessor, by contrast, depends on `Math.random()`: two
invocations on the same datum agree exactly when the two draws agree. -/
theorem c2_amended_accessor_determinism (sqrtFn : Rat → Rat) (toNumber : JSVal → Rat)
    (d : JSVal) (r1 r2 : Rat) :
    scenegraphGetPosition d r1 = scenegraphGetPosition d r2 ∧
    simpleMeshGetPosition d r1 = simpleMeshGetPosition d r2 ∧
    simpleMeshGetColor sqrtFn toNumber d r1 = simpleMeshGetColor sqrtFn toNumber d r2 ∧
    (scenegraphGetOrientation d r1 = scenegraphGetOrientation d r2 ↔ r1 = r2) ∧
    (simpleMeshGetOrientation d r1 = simpleMeshGetOrientation d r2 ↔ r1 = r2) := by
  refine ⟨rfl, rfl, rfl, ?_, ?_⟩ <;>
    exact ⟨fun h => mul_right_cancel₀ (by norm_num : (180 : Rat) ≠ 0)
        (congrArg (fun p => p.2.1) h),
      fun h => by rw [h]⟩

/-- C3: after the notebook's transformation steps, the `nodes` frame has
exactly the two columns `position` (holding, per row, the nested list of
that row's x, y and z values) and `color`, with the flat columns x, y, z and
the categorical column group removed. -/
theorem c3_transformed_columns (xs ys zs gs : List PyValue) (colors : PyValue → List Rat) :
    (transformNodes (initialNodes xs ys zs gs) colors).colNames = ["position", "color"] ∧
    ∀ i, i < xs.length →
      (transformNodes (initialNodes xs ys zs gs) colors).cell "position" i =
        PyValue.listV [(initialNodes xs ys zs gs).cell "x" i,
          (initialNodes xs ys zs gs).cell "y" i,
          (initialNodes xs ys zs gs).cell "z" i] := by
  refine ⟨rfl, fun i hi => ?_⟩
  show (((List.range xs.length).map _).get? i).getD _ = _
  rw [List.get?_eq_getElem?]
  simp [List.getElem?_range, hi]

/-- Witness for C3 at a one-row frame. -/
theorem c3_transformed_columns_witness :
    (transformNodes (initialNodes [PyValue.numV 1] [PyValue.numV 2] [PyValue.numV 3]
        [PyValue.strV "a"]) (fun _ => [0, 120, 255])).colNames = ["position", "color"] ∧
    (transformNodes (initialNodes [PyValue.numV 1] [PyValue.numV 2] [PyValue.numV 3]
        [PyValue.strV "a"]) (fun _ => [0, 120, 255])).cell "position" 0 =
      PyValue.listV [PyValue.numV 1, PyValue.numV 2, PyValue.numV 3] := by
  have h := c3_transformed_columns [PyValue.numV 1] [PyValue.numV 2] [PyValue.numV 3]
    [PyValue.strV "a"] (fun _ => [0, 120, 255])
  exact ⟨h.1, (h.2 0 (by norm_num)).trans rfl⟩

/-- C4 as stated is false on the code: the notebook's interaction with the
pydeck binding is not only ViewState/Layer/Deck/show — it also calls
`pdk.data_utils.assign_random_colors` and constructs a `pdk.View`, so the
claimed four-call surface does not match the notebook's pydeck calls. -/
theorem c4_call_surface_not_as_claimed :
    matchesClaimedCallSurface notebookPdkCalls = false := rfl

/-- C4 amended: the notebook's entire interaction with the pydeck binding
consists, in order, of one `pdk.data_utils.assign_random_colors` call,
constructing a ViewState with the view-state fields (offset, latitude,
longitude, bearing, pitch, zoom), constructing one View, constructing a
Layer with two positional arguments and keyword arguments, constructing a
Deck from layers, initial view state, views and a null map provider, and
invoking its `.show()` entry point. -/
theorem c4_amended_call_surface :
    notebookPdkCalls =
      [.assignRandomColorsC,
       .viewStateC ["offset", "latitude", "longitude", "bearing", "pitch", "zoom"],
       .viewC ["type", "controller"],
       .layerC 2 ["id", "use_binary_transport", "get_position", "get_normal", "get_color",
         "pickable", "auto_highlight", "highlight_color", "radius"],
       .deckC ["layers", "initial_view_state", "views", "map_provider"],
       .showC] := rfl

/-- C5 as stated is false on the code: both demos' tooltip function (the
very lines the claim cites) checks its input for validity — its body guards
on the truthiness of the picked `object` parameter and short-circuits on a
missing object instead of building the string. -/
theorem c5_tooltip_guard_checks_input :
    exportedTooltipSources meshLayersModule = [tooltipSource, tooltipSource] ∧
    Expr.isInputGuardedFn tooltipAst = true ∧
    tooltipRun JSVal.null = (JSVal.null, []) ∧
    tooltipRun (JSVal.objV [("name", JSVal.strV "A"), ("address", JSVal.strV "B")]) =
      (JSVal.strV "A\nB", ["name", "address"]) :=
  ⟨rfl, rfl, rfl, rfl⟩

/-- C5 amended: neither file contains any statement that raises, catches or
recovers from an error, and the only input-validity check in either file
(the notebook's cells, the demo module's statements and the code embedded in
its demo strings together) is the tooltip function's truthiness guard on the
picked object, one occurrence per demo. -/
theorem c5_amended_no_error_handling (dataUri : String) :
    ((allRepoStmts.map Stmt.substmts).flatten.all (fun s => !s.isErrorHandling)) = true ∧
    ((allRepoSubExprs dataUri).filter Expr.isInputGuardedFn) = [tooltipAst, tooltipAst] :=
  ⟨rfl, rfl⟩

/-- C6: the demo module imports exactly ScenegraphLayer and SimpleMeshLayer
from `@deck.gl/mesh-layers` and exports exactly two demos, one wiring each
of those layers to `makeLayerDemo`, and no others. -/
theorem c6_exact_wiring :
    importsFrom "@deck.gl/mesh-layers" meshLayersModule =
      ["ScenegraphLayer", "SimpleMeshLayer"] ∧
    exportedDemos meshLayersModule =
      [("ScenegraphLayerDemo", some "ScenegraphLayer"),
       ("SimpleMeshLayerDemo", some "SimpleMeshLayer")] :=
  ⟨rfl, rfl⟩

/-- C7: no statement of either file (function bodies included) spawns a
concurrent activity and no expression of either file (the code embedded in
the demo strings included) blocks on one; the transcriptions contain no
concurrency construct at all. -/
theorem c7_no_concurrency_constructs (dataUri : String) :
    ((allRepoStmts.map Stmt.substmts).flatten.all (fun s => !s.isSpawn)) = true ∧
    ((allRepoSubExprs dataUri).all (fun e => !e.isAwait)) = true :=
  ⟨rfl, rfl⟩

/-- C8: the tooltip function shared by both demos never dereferences a
missing object: on `null` or `undefined` it returns that falsy value having
read no field of it, and exactly on a truthy object it builds the
name/address string (reading the fields `name` and `address`). -/
theorem c8_tooltip_null_safety (object : JSVal) :
    ((object = JSVal.null ∨ object = JSVal.undefined) →
      tooltipRun object = (object, []) ∧ truthy object = false) ∧
    (truthy object = true →
      tooltipRun object =
        (JSVal.strV (jsToString (getField object "name") ++ "\n" ++
          jsToString (getField object "address")), ["name", "address"])) := by
  constructor
  · rintro (rfl | rfl) <;> exact ⟨rfl, rfl⟩
  · intro h
    simp [tooltipRun, h]

/-- Witness for C8 at `null` and at a concrete picked object. -/
theorem c8_tooltip_null_safety_witness :
    tooltipRun JSVal.null = (JSVal.null, []) ∧
    tooltipRun (JSVal.objV [("name", JSVal.strV "Montgomery St"),
        ("address", JSVal.strV "598 Market Street")]) =
      (JSVal.strV "Montgomery St\n598 Market Street", ["name", "address"]) := by
  refine ⟨((c8_tooltip_null_safety JSVal.null).1 (Or.inl rfl)).1, ?_⟩
  exact ((c8_tooltip_null_safety (JSVal.objV [("name", JSVal.strV "Montgomery St"),
    ("address", JSVal.strV "598 Market Street")])).2 rfl).trans rfl

/-- C9: the notebook's layer construction is internally consistent with its
binary-transport mode: `use_binary_transport` is true, the layer's data is
the transformed frame, the accessors `get_position` and `get_color` are
strings naming columns that exist in that frame at the time of the call, and
`get_normal` and `highlight_color` are constant literal values. -/
theorem c9_layer_binary_transport_consistency (xs ys zs gs : List PyValue)
    (colors : PyValue → List Rat) :
    (nodes_layer (transformNodes (initialNodes xs ys zs gs) colors)).use_binary_transport
        = true ∧
    (nodes_layer (transformNodes (initialNodes xs ys zs gs) colors)).data =
      transformNodes (initialNodes xs ys zs gs) colors ∧
    (nodes_layer (transformNodes (initialNodes xs ys zs gs) colors)).get_position =
      PdkAccessor.columnName "position" ∧
    (transformNodes (initialNodes xs ys zs gs) colors).hasCol "position" = true ∧
    (nodes_layer (transformNodes (initialNodes xs ys zs gs) colors)).get_color =
      PdkAccessor.columnName "color" ∧
    (transformNodes (initialNodes xs ys zs gs) colors).hasCol "color" = true ∧
    (nodes_layer (transformNodes (initialNodes xs ys zs gs) colors)).get_normal =
      PdkAccessor.constList [10, 100, 10] ∧
    (nodes_layer (transformNodes (initialNodes xs ys zs gs) colors)).highlight_color =
      [255, 255, 0] :=
  ⟨rfl, rfl, rfl, rfl, rfl, rfl, rfl, rfl⟩

/-- C10: in the demo module's evaluation trace, every demo-construction
event is preceded by the `registerLoaders([GLTFLoader, OBJLoader])` event,
so at no point does a constructed demo exist while the loaders are
unregistered. -/
theorem c10_register_before_demos (i : Nat) (e : ModuleEvent)
    (hi : moduleEvents.get? i = some e) (hd : e.isDemoConstructed = true) :
    ∃ j, j < i ∧ moduleEvents.get? j =
      some (ModuleEvent.loadersRegistered ["GLTFLoader", "OBJLoader"]) := by
  match i, hi with
  | 0, hi =>
    have h2 : some (ModuleEvent.loadersRegistered ["GLTFLoader", "OBJLoader"]) = some e := hi
    rw [← Option.some.inj h2] at hd
    exact absurd hd (by decide)
  | 1, _ => exact ⟨0, by omega, rfl⟩
  | 2, _ => exact ⟨0, by omega, rfl⟩
  | (n + 3), hi => exact nomatch hi

/-- Witness for C10 at the first demo-construction event of the trace. -/
theorem c10_register_before_demos_witness :
    ∃ j, j < 1 ∧ moduleEvents.get? j =
      some (ModuleEvent.loadersRegistered ["GLTFLoader", "OBJLoader"]) :=
  c10_register_before_demos 1 (ModuleEvent.demoConstructed "ScenegraphLayerDemo") rfl rfl

end DeckGlExcerpt
